import Mathlib

/-!
Verification of the Lumina Pomodoro timer subsystem.

Shallow embedding of:
* the core ticking engine `useTimerCore` (startTimer / pauseTimer /
  resumeTimer / stopTimer / updateTimer), with wall-clock instants and the
  animation-frame schedule made explicit;
* the session hooks `useTimerSession` (getNextSessionType, createSession,
  completeSession, loadActiveSession) and the legacy `usePomodoroTimer`
  hook's getNextSessionType;
* the settings cache `useTimerSettings` (loadSettings / updateSettings);
* the API layer's token refresh (`performTokenRefresh`) and the
  single-retry `request` wrapper, and `getActivePomodoroSession`.

Machine numbers are modelled as `Int` (JS numbers used here are integral:
millisecond timestamps and second counts); `Math.floor(x / 1000)` on a
possibly negative integer difference is `Int.fdiv · 1000`.
-/

namespace Lumina

/-! ## Core ticking engine (`useTimerCore`) -/

/-- The mutable refs of `useTimerCore`.  `animationFrame` records whether an
animation-frame callback is currently scheduled (`animationFrameRef` holds a
frame id). -/
structure CoreState where
  animationFrame : Bool
  startTime : Option Int
  pausedTime : Int
  duration : Int
  isRunning : Bool
  isPaused : Bool
  lastTickTime : Int
  timeRemaining : Int
deriving DecidableEq, Repr

/-- Initial ref values of a freshly mounted `useTimerCore`. -/
def CoreState.initial : CoreState :=
  { animationFrame := false, startTime := none, pausedTime := 0, duration := 0,
    isRunning := false, isPaused := false, lastTickTime := 0, timeRemaining := 0 }

/-- Observable callback invocations of the engine. -/
inductive TimerEvent where
  | tick (remaining : Int)
  | complete
deriving DecidableEq, Repr

/-- `updateTimer` body: called when a scheduled animation frame fires at
wall-clock instant `now` (the caller has consumed the scheduled frame, so
`s.animationFrame = false` on entry; re-requesting a frame sets it). -/
def updateTimer (interval : Int) (s : CoreState) (now : Int) :
    CoreState × List TimerEvent :=
  match s.startTime with
  | none => (s, [])
  | some startT =>
    if s.isRunning then
      let elapsed := (now - startT - s.pausedTime).fdiv 1000
      let remaining := max 0 (s.duration - elapsed)
      let tickNow : Bool := interval ≤ now - s.lastTickTime
      let s1 : CoreState :=
        if tickNow then
          { s with timeRemaining := remaining, lastTickTime := now }
        else { s with timeRemaining := remaining }
      let evs : List TimerEvent := if tickNow then [.tick remaining] else []
      if remaining = 0 then
        ({ s1 with isRunning := false, isPaused := false }, evs ++ [.complete])
      else
        ({ s1 with animationFrame := true }, evs)
    else (s, [])

/-- `startTimer(durationSeconds)` at instant `now`. -/
def startTimer (s : CoreState) (now durationSeconds : Int) :
    CoreState × List TimerEvent :=
  if s.isRunning then (s, [])
  else
    ({ animationFrame := true, startTime := some now, pausedTime := 0,
       duration := durationSeconds, isRunning := true, isPaused := false,
       lastTickTime := 0, timeRemaining := durationSeconds },
     [.tick durationSeconds])

/-- `pauseTimer()` at instant `now`. -/
def pauseTimer (s : CoreState) (now : Int) : CoreState :=
  match s.startTime with
  | none => s
  | some startT =>
    if ¬ s.isRunning ∨ s.isPaused then s
    else
      { s with pausedTime := s.pausedTime + (now - startT), isPaused := true,
               animationFrame := false }

/-- `resumeTimer()` at instant `now`. -/
def resumeTimer (s : CoreState) (now : Int) : CoreState :=
  if ¬ s.isRunning ∨ ¬ s.isPaused then s
  else
    { s with startTime := some now, isPaused := false, lastTickTime := 0,
             animationFrame := true }

/-- `stopTimer()`: clears counters and cancels the scheduled frame
(`lastTickTimeRef` is not reset by the source). -/
def stopTimer (s : CoreState) : CoreState :=
  { s with isRunning := false, isPaused := false, startTime := none,
           pausedTime := 0, duration := 0, timeRemaining := 0,
           animationFrame := false }

/-- One interaction with the engine: a public operation called at a given
instant, or the firing of the animation-frame callback at a given instant. -/
inductive TimerOp where
  | start (now durationSeconds : Int)
  | frame (now : Int)
  | pause (now : Int)
  | resume (now : Int)
  | stop
deriving DecidableEq, Repr

/-- Execute one operation.  An animation frame fires only when one is
scheduled; firing consumes it. -/
def stepTimer (interval : Int) (s : CoreState) : TimerOp → CoreState × List TimerEvent
  | .start now d => startTimer s now d
  | .frame now =>
    if s.animationFrame then
      updateTimer interval { s with animationFrame := false } now
    else (s, [])
  | .pause now => (pauseTimer s now, [])
  | .resume now => (resumeTimer s now, [])
  | .stop => (stopTimer s, [])

/-- Run a sequence of operations, collecting the emitted events. -/
def runTimer (interval : Int) (s : CoreState) :
    List TimerOp → CoreState × List TimerEvent
  | [] => (s, [])
  | op :: ops =>
    let r1 := stepTimer interval s op
    let r2 := runTimer interval r1.1 ops
    (r2.1, r1.2 ++ r2.2)

/-- The remaining values passed to the tick callback, in order. -/
def ticksOf : List TimerEvent → List Int
  | [] => []
  | .tick r :: es => r :: ticksOf es
  | .complete :: es => ticksOf es

/-- Number of completion-callback invocations. -/
def completeCount : List TimerEvent → Nat
  | [] => 0
  | .complete :: es => completeCount es + 1
  | .tick _ :: es => completeCount es

/-! ## Session-type transition functions -/

/-- `PomodoroSessionType`. -/
inductive SessionType where
  | work
  | short_break
  | long_break
deriving DecidableEq, Repr

/-- `getNextSessionType` of the refactored hook `useTimerSession`
(`sessionNumber % sessionsUntilLongBreak === 0`). -/
def getNextSessionType (sessionType : SessionType)
    (sessionNumber sessionsUntilLongBreak : Nat) : SessionType :=
  match sessionType with
  | .work =>
    if sessionNumber % sessionsUntilLongBreak = 0 then .long_break
    else .short_break
  | _ => .work

/-- `getNextSessionType` of the legacy `usePomodoroTimer` hook
(`sessionNumber >= sessionsUntilLongBreak`). -/
def getNextSessionTypeLegacy (sessionType : SessionType)
    (sessionNumber sessionsUntilLongBreak : Nat) : SessionType :=
  match sessionType with
  | .work =>
    if sessionsUntilLongBreak ≤ sessionNumber then .long_break
    else .short_break
  | _ => .work

/-! ## Session lifecycle manager (`useTimerSession`) -/

/-- `PomodoroSessionStatus`. -/
inductive SessionStatus where
  | active
  | paused
  | completed
  | skipped
  | cancelled
deriving DecidableEq, Repr

/-- The fields of a server `PomodoroSession` that the session hooks read
(`id`, `session_type`, `status`; timing/notes fields are never consulted by
the hook logic). -/
structure Session where
  id : Int
  session_type : SessionType
  status : SessionStatus
deriving DecidableEq, Repr

/-- The React state of `useTimerSession`. -/
structure SessionState where
  currentSession : Option Session
  sessionType : SessionType
  sessionNumber : Nat
  totalSessions : Nat
  error : Option String
deriving DecidableEq, Repr

/-- Initial `useState` values of `useTimerSession`. -/
def SessionState.initial : SessionState :=
  { currentSession := none, sessionType := .work, sessionNumber := 1,
    totalSessions := 0, error := none }

/-- `createSession` applied to the remote call's outcome: on success the
returned session becomes current; on failure the error is stored (and the
hook rethrows). -/
def createSessionOp (st : SessionState) (outcome : Except String Session) :
    SessionState :=
  match outcome with
  | .ok s => { st with error := none, currentSession := some s }
  | .error m => { st with error := some m }

/-- `updateSession(sessionId, updates)`: `updates` is modelled by its
`status` field (the only `PomodoroSessionUpdate` field the local state
merge can affect in this model). -/
def updateSessionOp (st : SessionState) (sessionId : Int)
    (statusUpd : Option SessionStatus) (outcome : Except String Unit) :
    SessionState :=
  match outcome with
  | .ok _ =>
    match st.currentSession with
    | some c =>
      if c.id = sessionId then
        { st with error := none,
                  currentSession := some { c with status := statusUpd.getD c.status } }
      else { st with error := none }
    | none => { st with error := none }
  | .error m => { st with error := some m }

/-- `completeSession(sessionId)`: on success, if it targets the current
session, the reference is cleared and the counter bumped. -/
def completeSessionOp (st : SessionState) (sessionId : Int)
    (outcome : Except String Unit) : SessionState :=
  match outcome with
  | .ok _ =>
    match st.currentSession with
    | some c =>
      if c.id = sessionId then
        { st with error := none, currentSession := none,
                  totalSessions := st.totalSessions + 1 }
      else { st with error := none }
    | none => { st with error := none }
  | .error m => { st with error := some m }

/-- `loadActiveSession()`: `setError(null)` runs first; the catch branch
only clears the current session ("No active session is not an error"). -/
def loadActiveSessionOp (st : SessionState)
    (outcome : Except String (Option Session)) : SessionState :=
  match outcome with
  | .ok r =>
    let st1 := { st with error := none, currentSession := r }
    match r with
    | some s => { st1 with sessionType := s.session_type }
    | none => st1
  | .error _ => { st with error := none, currentSession := none }

/-- `updateSessionType(newType)`. -/
def updateSessionTypeOp (st : SessionState) (newType : SessionType) :
    SessionState :=
  { st with sessionType := newType,
            sessionNumber :=
              if newType = .work ∧ st.sessionType ≠ .work then
                st.sessionNumber + 1
              else st.sessionNumber }

/-- One interaction with the session manager, with the remote outcome it
observed. -/
inductive SessionOp where
  | create (outcome : Except String Session)
  | update (sessionId : Int) (statusUpd : Option SessionStatus)
      (outcome : Except String Unit)
  | complete (sessionId : Int) (outcome : Except String Unit)
  | loadActive (outcome : Except String (Option Session))
  | setType (newType : SessionType)

/-- Execute one session-manager operation. -/
def stepSession (st : SessionState) : SessionOp → SessionState
  | .create outcome => createSessionOp st outcome
  | .update sessionId upd outcome => updateSessionOp st sessionId upd outcome
  | .complete sessionId outcome => completeSessionOp st sessionId outcome
  | .loadActive outcome => loadActiveSessionOp st outcome
  | .setType newType => updateSessionTypeOp st newType

/-- Run a sequence of session-manager operations. -/
def runSession (st : SessionState) : List SessionOp → SessionState
  | [] => st
  | op :: ops => runSession (stepSession st op) ops

/-- `apiService.getActivePomodoroSession`: maps a failing `request` whose
message mentions 204 to "no active session". -/
def getActivePomodoroSession (resp : Except String Session) :
    Except String (Option Session) :=
  match resp with
  | .ok s => .ok (some s)
  | .error m =>
    if "204".toList <:+: m.toList then .ok none else .error m

/-! ## Settings cache (`useTimerSettings`) -/

/-- `PomodoroSettings` (the `created_at`/`updated_at` strings carried by the
server record are included for completeness). -/
structure Settings where
  id : Int
  work_duration : Int
  short_break_duration : Int
  long_break_duration : Int
  sessions_until_long_break : Int
  auto_start_breaks : Bool
  auto_start_work : Bool
  enable_audio : Bool
  work_sound : String
  break_sound : String
  volume : Int
  enable_notifications : Bool
  created_at : String
  updated_at : String
deriving DecidableEq, Repr

/-- `Partial<PomodoroSettings>`: each field optionally present. -/
structure SettingsPartial where
  id : Option Int := none
  work_duration : Option Int := none
  short_break_duration : Option Int := none
  long_break_duration : Option Int := none
  sessions_until_long_break : Option Int := none
  auto_start_breaks : Option Bool := none
  auto_start_work : Option Bool := none
  enable_audio : Option Bool := none
  work_sound : Option String := none
  break_sound : Option String := none
  volume : Option Int := none
  enable_notifications : Option Bool := none
  created_at : Option String := none
  updated_at : Option String := none
deriving DecidableEq, Repr

/-- JS object spread `{ ...settings, ...newSettings }`. -/
def mergeSettings (s : Settings) (p : SettingsPartial) : Settings :=
  { id := p.id.getD s.id,
    work_duration := p.work_duration.getD s.work_duration,
    short_break_duration := p.short_break_duration.getD s.short_break_duration,
    long_break_duration := p.long_break_duration.getD s.long_break_duration,
    sessions_until_long_break :=
      p.sessions_until_long_break.getD s.sessions_until_long_break,
    auto_start_breaks := p.auto_start_breaks.getD s.auto_start_breaks,
    auto_start_work := p.auto_start_work.getD s.auto_start_work,
    enable_audio := p.enable_audio.getD s.enable_audio,
    work_sound := p.work_sound.getD s.work_sound,
    break_sound := p.break_sound.getD s.break_sound,
    volume := p.volume.getD s.volume,
    enable_notifications := p.enable_notifications.getD s.enable_notifications,
    created_at := p.created_at.getD s.created_at,
    updated_at := p.updated_at.getD s.updated_at }

/-- Outcome of an awaited remote call: success, or a rejection which either
is an `AbortError` or a real failure. -/
inductive FetchOutcome (α : Type) where
  | ok (a : α)
  | error (aborted : Bool)
deriving DecidableEq, Repr

/-- The module-level cache variables of `useTimerSettings`. -/
structure SettingsCache where
  settingsCache : Option Settings
  cacheTimestamp : Option Int
deriving DecidableEq, Repr

/-- `CACHE_DURATION_MS = 5 * 60 * 1000`. -/
def CACHE_DURATION_MS : Int := 5 * 60 * 1000

/-- The freshness test of `loadSettings`:
`settingsCache && cacheTimestamp && Date.now() - cacheTimestamp < CACHE_DURATION_MS`
(a `cacheTimestamp` of `0` is falsy in JS). -/
def cacheFresh (cache : SettingsCache) (now : Int) : Bool :=
  match cache.settingsCache, cache.cacheTimestamp with
  | some _, some t => decide (t ≠ 0) && decide (now - t < CACHE_DURATION_MS)
  | _, _ => false

/-- Result of one `loadSettings` call. -/
structure LoadSettingsResult where
  requestMade : Bool
  cache : SettingsCache
  settings : Option Settings
  error : Option String
deriving DecidableEq, Repr

/-- `loadSettings(forceRefresh)` at instant `now`, over the current cache,
the hook's visible `settings`/`error` state, and the remote outcome
(consulted only when a request is issued). -/
def loadSettingsRun (cache : SettingsCache) (stg : Option Settings)
    (err0 : Option String) (now : Int) (forceRefresh : Bool)
    (outcome : FetchOutcome Settings) : LoadSettingsResult :=
  if ¬ forceRefresh ∧ cacheFresh cache now then
    { requestMade := false, cache := cache, settings := cache.settingsCache,
      error := err0 }
  else
    match outcome with
    | .ok userSettings =>
      { requestMade := true,
        cache := { settingsCache := some userSettings, cacheTimestamp := some now },
        settings := some userSettings, error := none }
    | .error aborted =>
      { requestMade := true, cache := cache, settings := stg,
        error := if aborted then none else some "Failed to load timer settings" }

/-- Result of one `updateSettings` call: the successive values passed to
`setSettings` (in order), the resulting error state and cache, and whether
the call rejected. -/
structure UpdateSettingsResult where
  visible : List (Option Settings)
  error : Option String
  cache : SettingsCache
  threw : Bool
deriving DecidableEq, Repr

/-- `updateSettings(newSettings)` at instant `now` over the loaded state
`stg` and the remote outcome.  The optimistic merge is applied first; on
failure the pre-update snapshot is restored (an `AbortError` restores it
too but surfaces no error and does not rethrow). -/
def updateSettingsRun (cache : SettingsCache) (stg : Option Settings)
    (now : Int) (p : SettingsPartial) (outcome : FetchOutcome Settings) :
    UpdateSettingsResult :=
  match stg with
  | none => { visible := [], error := none, cache := cache, threw := true }
  | some s =>
    let merged := mergeSettings s p
    match outcome with
    | .ok saved =>
      { visible := [some merged, some saved], error := none,
        cache := { settingsCache := some saved, cacheTimestamp := some now },
        threw := false }
    | .error aborted =>
      { visible := [some merged, some s],
        error := if aborted then none else some "Failed to save timer settings",
        cache := cache, threw := ¬ aborted }

/-- A concrete settings record (used to instantiate witnesses). -/
def sampleSettings : Settings :=
  { id := 1, work_duration := 25, short_break_duration := 5,
    long_break_duration := 15, sessions_until_long_break := 4,
    auto_start_breaks := false, auto_start_work := false,
    enable_audio := true, work_sound := "chime", break_sound := "bell",
    volume := 50, enable_notifications := true, created_at := "",
    updated_at := "" }

/-! ## Token refresh (`performTokenRefresh`, `apiEndpoints.TOKEN_REFRESH`) -/

/-- Outcome of one `fetch` of the refresh endpoint. -/
inductive FetchResult where
  | ok
  | status (code : Nat)
  | netError
deriving DecidableEq, Repr

/-- `TOKEN_REFRESH` constants of `apiEndpoints.ts`. -/
def TOKEN_REFRESH_MAX_RETRIES : Nat := 3

/-- `TOKEN_REFRESH.INITIAL_DELAY_MS`. -/
def TOKEN_REFRESH_INITIAL_DELAY_MS : Nat := 1000

/-- `TOKEN_REFRESH.BACKOFF_MULTIPLIER`. -/
def TOKEN_REFRESH_BACKOFF_MULTIPLIER : Nat := 2

/-- `TOKEN_REFRESH.MAX_DELAY_MS`. -/
def TOKEN_REFRESH_MAX_DELAY_MS : Nat := 30000

/-- Backoff delay before the retry following attempt number `attempt`:
`Math.min(INITIAL_DELAY_MS * BACKOFF_MULTIPLIER ** (attempt - 1), MAX_DELAY_MS)`. -/
def refreshDelay (attempt : Nat) : Nat :=
  min (TOKEN_REFRESH_INITIAL_DELAY_MS *
        TOKEN_REFRESH_BACKOFF_MULTIPLIER ^ (attempt - 1))
    TOKEN_REFRESH_MAX_DELAY_MS

/-- What `performTokenRefresh` did: whether it returned non-null, the fetch
outcomes it observed in order, and the backoff sleeps it performed. -/
structure RefreshResult where
  success : Bool
  attempts : List FetchResult
  sleeps : List Nat
deriving DecidableEq, Repr

/-- The retry loop of `performTokenRefresh`, iterating over the remaining
attempt numbers; `oracle i` is the outcome of the fetch on attempt `i`.
An `ok` response returns success; a 401 returns null without retrying;
anything else is thrown, caught, and (when `attempt < MAX_RETRIES`) slept
over before the next iteration. -/
def performTokenRefreshGo (oracle : Nat → FetchResult) :
    List Nat → RefreshResult
  | [] => { success := false, attempts := [], sleeps := [] }
  | attempt :: rest =>
    match oracle attempt with
    | .ok => { success := true, attempts := [.ok], sleeps := [] }
    | .status code =>
      if code = 401 then
        { success := false, attempts := [.status code], sleeps := [] }
      else
        let tail := performTokenRefreshGo oracle rest
        { success := tail.success, attempts := .status code :: tail.attempts,
          sleeps :=
            (if attempt < TOKEN_REFRESH_MAX_RETRIES then [refreshDelay attempt]
             else []) ++ tail.sleeps }
    | .netError =>
      let tail := performTokenRefreshGo oracle rest
      { success := tail.success, attempts := .netError :: tail.attempts,
        sleeps :=
          (if attempt < TOKEN_REFRESH_MAX_RETRIES then [refreshDelay attempt]
           else []) ++ tail.sleeps }

/-- `performTokenRefresh`: the loop `for (attempt = 1; attempt <= MAX_RETRIES; ...)`. -/
def performTokenRefresh (oracle : Nat → FetchResult) : RefreshResult :=
  performTokenRefreshGo oracle
    ((List.range TOKEN_REFRESH_MAX_RETRIES).map (· + 1))

/-- Number of fetches of its own endpoint performed by `request(endpoint,
options, isRetry)`: one fetch, plus — only when that fetch answered 401,
`isRetry` was false, and the token refresh succeeded — the single recursive
call with `isRetry = true` (whose body's 401-refresh branch is disabled by
the flag, so it fetches exactly once). -/
def requestFetchCount (statusAt : Bool → Nat) (refreshOk : Bool) :
    Bool → Nat
  | false =>
    if statusAt false = 401 ∧ refreshOk then
      1 + requestFetchCount statusAt refreshOk true
    else 1
  | true => 1
termination_by isRetry => if isRetry then 0 else 1
decreasing_by simp

/-! ## Helper lemmas about the ticking engine -/

/-- The remaining value `updateTimer` computes at instant `t` for an engine
started at `t0` with accumulated `pausedTime` `p` and duration `D`. -/
def remOf (t0 p D t : Int) : Int := max 0 (D - (t - t0 - p).fdiv 1000)

/-- Engine state while running un-paused with a frame scheduled. -/
def activeState (t0 p D lt r : Int) : CoreState :=
  { animationFrame := true, startTime := some t0, pausedTime := p,
    duration := D, isRunning := true, isPaused := false, lastTickTime := lt,
    timeRemaining := r }

/-- Engine state after natural completion. -/
def haltState (t0 p D lt r : Int) : CoreState :=
  { animationFrame := false, startTime := some t0, pausedTime := p,
    duration := D, isRunning := false, isPaused := false, lastTickTime := lt,
    timeRemaining := r }

lemma remOf_nonneg (t0 p D t : Int) : 0 ≤ remOf t0 p D t := le_max_left _ _

lemma remOf_antitone (t0 p D : Int) {t t' : Int} (h : t ≤ t') :
    remOf t0 p D t' ≤ remOf t0 p D t := by
  unfold remOf
  have h1000 : (0 : Int) ≤ 1000 := by norm_num
  have hmono : (t - t0 - p).fdiv 1000 ≤ (t' - t0 - p).fdiv 1000 := by
    rw [Int.fdiv_eq_ediv _ h1000, Int.fdiv_eq_ediv _ h1000]
    exact Int.ediv_le_ediv (by norm_num) (by omega)
  exact max_le_max le_rfl (by omega)

lemma remOf_le_duration {t0 p D t : Int} (h : t0 + p ≤ t) (hD : 0 ≤ D) :
    remOf t0 p D t ≤ D := by
  unfold remOf
  have : (0 : Int) ≤ (t - t0 - p).fdiv 1000 :=
    Int.fdiv_nonneg (by omega) (by norm_num)
  omega

lemma remOf_eq_zero_iff (t0 p D t : Int) :
    remOf t0 p D t = 0 ↔ D * 1000 ≤ t - t0 - p := by
  unfold remOf
  have h1000 : (0 : Int) ≤ 1000 := by norm_num
  rw [Int.fdiv_eq_ediv _ h1000]
  constructor
  · intro h
    have : D ≤ (t - t0 - p) / 1000 := by omega
    exact (Int.le_ediv_iff_mul_le (by norm_num)).mp this
  · intro h
    have : D ≤ (t - t0 - p) / 1000 :=
      (Int.le_ediv_iff_mul_le (by norm_num)).mpr h
    omega

lemma ticksOf_append (l1 l2 : List TimerEvent) :
    ticksOf (l1 ++ l2) = ticksOf l1 ++ ticksOf l2 := by
  induction l1 with
  | nil => rfl
  | cons e es ih => cases e <;> simp [ticksOf, ih]

lemma completeCount_append (l1 l2 : List TimerEvent) :
    completeCount (l1 ++ l2) = completeCount l1 + completeCount l2 := by
  induction l1 with
  | nil => simp [completeCount]
  | cons e es ih =>
    cases e with
    | tick r => simp [completeCount, ih]
    | complete => simp [completeCount, ih]; omega

lemma runTimer_frames_unscheduled (interval : Int) (s : CoreState)
    (h : s.animationFrame = false) (frames : List Int) :
    runTimer interval s (frames.map .frame) = (s, []) := by
  induction frames with
  | nil => rfl
  | cons t ts ih => simp [runTimer, stepTimer, h, ih]

lemma stepTimer_frame_run_tick (interval t0 p D lt r t : Int)
    (htick : interval ≤ t - lt) (hrem : remOf t0 p D t ≠ 0) :
    stepTimer interval (activeState t0 p D lt r) (.frame t) =
      (activeState t0 p D t (remOf t0 p D t),
       [TimerEvent.tick (remOf t0 p D t)]) := by
  unfold remOf at hrem
  simp [stepTimer, activeState, updateTimer, remOf, htick, hrem]

lemma stepTimer_frame_run_notick (interval t0 p D lt r t : Int)
    (htick : ¬ interval ≤ t - lt) (hrem : remOf t0 p D t ≠ 0) :
    stepTimer interval (activeState t0 p D lt r) (.frame t) =
      (activeState t0 p D lt (remOf t0 p D t), []) := by
  unfold remOf at hrem
  simp [stepTimer, activeState, updateTimer, remOf, htick, hrem]

lemma stepTimer_frame_done_tick (interval t0 p D lt r t : Int)
    (htick : interval ≤ t - lt) (hrem : remOf t0 p D t = 0) :
    stepTimer interval (activeState t0 p D lt r) (.frame t) =
      (haltState t0 p D t 0, [TimerEvent.tick 0, TimerEvent.complete]) := by
  unfold remOf at hrem
  simp [stepTimer, activeState, haltState, updateTimer, remOf, htick, hrem]

lemma stepTimer_frame_done_notick (interval t0 p D lt r t : Int)
    (htick : ¬ interval ≤ t - lt) (hrem : remOf t0 p D t = 0) :
    stepTimer interval (activeState t0 p D lt r) (.frame t) =
      (haltState t0 p D lt 0, [TimerEvent.complete]) := by
  unfold remOf at hrem
  simp [stepTimer, activeState, haltState, updateTimer, remOf, htick, hrem]

lemma runTimer_cons (interval : Int) (s : CoreState) (op : TimerOp)
    (ops : List TimerOp) :
    runTimer interval s (op :: ops) =
      ((runTimer interval (stepTimer interval s op).1 ops).1,
       (stepTimer interval s op).2 ++
         (runTimer interval (stepTimer interval s op).1 ops).2) := rfl

/-- Invariant of the frame loop: from a running un-paused state, processing a
monotone frame schedule yields tick values bounded by any bound on the frame
remainders, in non-increasing order; a completion fires exactly when some
frame reaches remainder 0, at most once, as the final event, halting the
engine. -/
lemma runFrames_active_spec (interval t0 p D : Int) :
    ∀ (frames : List Int) (lt r B : Int),
      List.Pairwise (· ≤ ·) frames →
      (∀ t ∈ frames, remOf t0 p D t ≤ B) →
      (∀ v ∈ ticksOf (runTimer interval (activeState t0 p D lt r)
            (frames.map .frame)).2, 0 ≤ v ∧ v ≤ B) ∧
      List.Chain' (· ≥ ·) (ticksOf (runTimer interval (activeState t0 p D lt r)
            (frames.map .frame)).2) ∧
      ((∃ t ∈ frames, remOf t0 p D t = 0) →
        completeCount (runTimer interval (activeState t0 p D lt r)
            (frames.map .frame)).2 = 1 ∧
        (runTimer interval (activeState t0 p D lt r)
            (frames.map .frame)).2.getLast? = some TimerEvent.complete ∧
        (runTimer interval (activeState t0 p D lt r)
            (frames.map .frame)).1.isRunning = false ∧
        (runTimer interval (activeState t0 p D lt r)
            (frames.map .frame)).1.animationFrame = false) ∧
      ((∀ t ∈ frames, remOf t0 p D t ≠ 0) →
        completeCount (runTimer interval (activeState t0 p D lt r)
            (frames.map .frame)).2 = 0) := by
  intro frames
  induction frames with
  | nil =>
    intro lt r B _ _
    simp [runTimer, ticksOf, completeCount]
  | cons t ts ih =>
    intro lt r B hsort hB
    have hts : ∀ x ∈ ts, t ≤ x := (List.pairwise_cons.mp hsort).1
    have hsort' : List.Pairwise (· ≤ ·) ts := (List.pairwise_cons.mp hsort).2
    have hBt : remOf t0 p D t ≤ B := hB t (List.mem_cons_self t ts)
    by_cases hrem : remOf t0 p D t = 0
    · by_cases htick : interval ≤ t - lt
      · rw [List.map_cons, runTimer_cons,
          stepTimer_frame_done_tick interval t0 p D lt r t htick hrem,
          runTimer_frames_unscheduled interval _ rfl]
        refine ⟨?_, ?_, ?_, ?_⟩
        · intro v hv
          simp only [ticksOf] at hv
          simp only [List.mem_singleton] at hv
          subst hv
          exact ⟨le_rfl, hrem ▸ hBt⟩
        · simp [ticksOf]
        · intro _
          exact ⟨by simp [completeCount], by simp, rfl, rfl⟩
        · intro hall
          exact absurd hrem (hall t (List.mem_cons_self t ts))
      · rw [List.map_cons, runTimer_cons,
          stepTimer_frame_done_notick interval t0 p D lt r t htick hrem,
          runTimer_frames_unscheduled interval _ rfl]
        refine ⟨?_, ?_, ?_, ?_⟩
        · intro v hv
          simp [ticksOf] at hv
        · simp [ticksOf]
        · intro _
          exact ⟨by simp [completeCount], by simp, rfl, rfl⟩
        · intro hall
          exact absurd hrem (hall t (List.mem_cons_self t ts))
    · have hB' : ∀ x ∈ ts, remOf t0 p D x ≤ remOf t0 p D t :=
        fun x hx => remOf_antitone t0 p D (hts x hx)
      by_cases htick : interval ≤ t - lt
      · obtain ⟨ihBound, ihChain, ihDone, ihNone⟩ :=
          ih t (remOf t0 p D t) (remOf t0 p D t) hsort' hB'
        rw [List.map_cons, runTimer_cons,
          stepTimer_frame_run_tick interval t0 p D lt r t htick hrem]
        refine ⟨?_, ?_, ?_, ?_⟩
        · intro v hv
          rw [ticksOf_append] at hv
          simp only [ticksOf, List.mem_append, List.mem_singleton] at hv
          rcases hv with hv | hv
          · subst hv
            exact ⟨remOf_nonneg t0 p D t, hBt⟩
          · exact ⟨(ihBound v hv).1, le_trans (ihBound v hv).2 hBt⟩
        · rw [ticksOf_append]
          simp only [ticksOf]
          rw [List.singleton_append]
          exact List.chain'_cons'.mpr
            ⟨fun y hy => (ihBound y (List.mem_of_mem_head? hy)).2, ihChain⟩
        · rintro ⟨x, hx, hx0⟩
          have hx' : x ∈ ts := by
            rcases List.mem_cons.mp hx with h | h
            · exact absurd (h ▸ hx0) hrem
            · exact h
          obtain ⟨c1, c2, c3, c4⟩ := ihDone ⟨x, hx', hx0⟩
          refine ⟨?_, ?_, c3, c4⟩
          · simp [completeCount_append, completeCount, c1]
          · have hne : (runTimer interval (activeState t0 p D t (remOf t0 p D t))
                (ts.map .frame)).2 ≠ [] := by
              intro h
              rw [h] at c2
              simp at c2
            rw [List.getLast?_append_of_ne_nil _ hne]
            exact c2
        · intro hall
          have hall' : ∀ x ∈ ts, remOf t0 p D x ≠ 0 :=
            fun x hx => hall x (List.mem_cons_of_mem t hx)
          simp [completeCount_append, completeCount, ihNone hall']
      · obtain ⟨ihBound, ihChain, ihDone, ihNone⟩ :=
          ih lt (remOf t0 p D t) (remOf t0 p D t) hsort' hB'
        rw [List.map_cons, runTimer_cons,
          stepTimer_frame_run_notick interval t0 p D lt r t htick hrem]
        rw [List.nil_append]
        refine ⟨?_, ?_, ?_, ?_⟩
        · intro v hv
          exact ⟨(ihBound v hv).1, le_trans (ihBound v hv).2 hBt⟩
        · exact ihChain
        · rintro ⟨x, hx, hx0⟩
          have hx' : x ∈ ts := by
            rcases List.mem_cons.mp hx with h | h
            · exact absurd (h ▸ hx0) hrem
            · exact h
          exact ihDone ⟨x, hx', hx0⟩
        · intro hall
          have hall' : ∀ x ∈ ts, remOf t0 p D x ≠ 0 :=
            fun x hx => hall x (List.mem_cons_of_mem t hx)
          exact ihNone hall'

lemma performTokenRefreshGo_attempts_le (oracle : Nat → FetchResult)
    (l : List Nat) :
    (performTokenRefreshGo oracle l).attempts.length ≤ l.length := by
  induction l with
  | nil => simp [performTokenRefreshGo]
  | cons a rest ih =>
    rcases h : oracle a with _ | code | _
    · simp [performTokenRefreshGo, h]
    · by_cases hc : code = 401
      · simp [performTokenRefreshGo, h, hc]
      · simp only [performTokenRefreshGo, h, hc, if_false, List.length_cons]
        omega
    · simp only [performTokenRefreshGo, h, List.length_cons]
      omega

lemma performTokenRefreshGo_401_last (oracle : Nat → FetchResult)
    (l : List Nat)
    (hmem : FetchResult.status 401 ∈ (performTokenRefreshGo oracle l).attempts) :
    (performTokenRefreshGo oracle l).attempts.getLast? =
        some (.status 401) ∧
      (performTokenRefreshGo oracle l).success = false := by
  induction l with
  | nil => simp [performTokenRefreshGo] at hmem
  | cons a rest ih =>
    rcases h : oracle a with _ | code | _
    · simp [performTokenRefreshGo, h] at hmem
    · by_cases hc : code = 401
      · subst hc
        simp [performTokenRefreshGo, h]
      · simp only [performTokenRefreshGo, h, hc, if_false] at hmem ⊢
        have hmem' : FetchResult.status 401 ∈
            (performTokenRefreshGo oracle rest).attempts := by
          rcases List.mem_cons.mp hmem with he | he
          · simp only [FetchResult.status.injEq] at he
            exact absurd he.symm hc
          · exact he
        obtain ⟨g1, g2⟩ := ih hmem'
        have hne : (performTokenRefreshGo oracle rest).attempts ≠ [] := by
          intro hnil
          rw [hnil] at g1
          simp at g1
        refine ⟨?_, g2⟩
        rw [show FetchResult.status code ::
              (performTokenRefreshGo oracle rest).attempts =
            [FetchResult.status code] ++
              (performTokenRefreshGo oracle rest).attempts from rfl,
          List.getLast?_append_of_ne_nil _ hne]
        exact g1
    · simp only [performTokenRefreshGo, h] at hmem ⊢
      have hmem' : FetchResult.status 401 ∈
          (performTokenRefreshGo oracle rest).attempts := by
        rcases List.mem_cons.mp hmem with he | he
        · exact absurd he (by simp)
        · exact he
      obtain ⟨g1, g2⟩ := ih hmem'
      have hne : (performTokenRefreshGo oracle rest).attempts ≠ [] := by
        intro hnil
        rw [hnil] at g1
        simp at g1
      refine ⟨?_, g2⟩
      rw [show FetchResult.netError ::
            (performTokenRefreshGo oracle rest).attempts =
          [FetchResult.netError] ++
            (performTokenRefreshGo oracle rest).attempts from rfl,
        List.getLast?_append_of_ne_nil _ hne]
      exact g1

lemma performTokenRefreshGo_no_ok (oracle : Nat → FetchResult) (l : List Nat)
    (h : ∀ i ∈ l, oracle i ≠ .ok) :
    (performTokenRefreshGo oracle l).success = false := by
  induction l with
  | nil => simp [performTokenRefreshGo]
  | cons a rest ih =>
    rcases ha : oracle a with _ | code | _
    · exact absurd ha (h a (List.mem_cons_self a rest))
    · by_cases hc : code = 401
      · simp [performTokenRefreshGo, ha, hc]
      · simp only [performTokenRefreshGo, ha, hc, if_false]
        exact ih (fun i hi => h i (List.mem_cons_of_mem a hi))
    · simp only [performTokenRefreshGo, ha]
      exact ih (fun i hi => h i (List.mem_cons_of_mem a hi))

lemma performTokenRefreshGo_123_sleeps (oracle : Nat → FetchResult) :
    (performTokenRefreshGo oracle [1, 2, 3]).sleeps =
      (List.range
          ((performTokenRefreshGo oracle [1, 2, 3]).attempts.length - 1)).map
        (fun i => refreshDelay (i + 1)) := by
  rcases h1 : oracle 1 with _ | c1 | _
  · simp [performTokenRefreshGo, h1]
  · by_cases hc1 : c1 = 401
    · simp [performTokenRefreshGo, h1, hc1]
    · rcases h2 : oracle 2 with _ | c2 | _
      · simp [performTokenRefreshGo, h1, h2, hc1,
          TOKEN_REFRESH_MAX_RETRIES, List.range_succ]
      · by_cases hc2 : c2 = 401
        · simp [performTokenRefreshGo, h1, h2, hc1, hc2,
            TOKEN_REFRESH_MAX_RETRIES, List.range_succ]
        · rcases h3 : oracle 3 with _ | c3 | _
          · simp [performTokenRefreshGo, h1, h2, h3, hc1, hc2,
              TOKEN_REFRESH_MAX_RETRIES, List.range_succ]
          · by_cases hc3 : c3 = 401 <;>
              simp [performTokenRefreshGo, h1, h2, h3, hc1, hc2, hc3,
                TOKEN_REFRESH_MAX_RETRIES, List.range_succ]
          · simp [performTokenRefreshGo, h1, h2, h3, hc1, hc2,
              TOKEN_REFRESH_MAX_RETRIES, List.range_succ]
      · rcases h3 : oracle 3 with _ | c3 | _
        · simp [performTokenRefreshGo, h1, h2, h3, hc1,
            TOKEN_REFRESH_MAX_RETRIES, List.range_succ]
        · by_cases hc3 : c3 = 401 <;>
            simp [performTokenRefreshGo, h1, h2, h3, hc1, hc3,
              TOKEN_REFRESH_MAX_RETRIES, List.range_succ]
        · simp [performTokenRefreshGo, h1, h2, h3, hc1,
            TOKEN_REFRESH_MAX_RETRIES, List.range_succ]
  · rcases h2 : oracle 2 with _ | c2 | _
    · simp [performTokenRefreshGo, h1, h2, TOKEN_REFRESH_MAX_RETRIES,
        List.range_succ]
    · by_cases hc2 : c2 = 401
      · simp [performTokenRefreshGo, h1, h2, hc2,
          TOKEN_REFRESH_MAX_RETRIES, List.range_succ]
      · rcases h3 : oracle 3 with _ | c3 | _
        · simp [performTokenRefreshGo, h1, h2, h3, hc2,
            TOKEN_REFRESH_MAX_RETRIES, List.range_succ]
        · by_cases hc3 : c3 = 401 <;>
            simp [performTokenRefreshGo, h1, h2, h3, hc2, hc3,
              TOKEN_REFRESH_MAX_RETRIES, List.range_succ]
        · simp [performTokenRefreshGo, h1, h2, h3, hc2,
            TOKEN_REFRESH_MAX_RETRIES, List.range_succ]
    · rcases h3 : oracle 3 with _ | c3 | _
      · simp [performTokenRefreshGo, h1, h2, h3,
          TOKEN_REFRESH_MAX_RETRIES, List.range_succ]
      · by_cases hc3 : c3 = 401 <;>
          simp [performTokenRefreshGo, h1, h2, h3, hc3,
            TOKEN_REFRESH_MAX_RETRIES, List.range_succ]
      · simp [performTokenRefreshGo, h1, h2, h3,
          TOKEN_REFRESH_MAX_RETRIES, List.range_succ]

lemma performTokenRefresh_eq_go123 (oracle : Nat → FetchResult) :
    performTokenRefresh oracle = performTokenRefreshGo oracle [1, 2, 3] := rfl

lemma requestFetchCount_le_two (statusAt : Bool → Nat)
    (refreshOk isRetry : Bool) :
    requestFetchCount statusAt refreshOk isRetry ≤ 2 := by
  cases isRetry with
  | true => simp [requestFetchCount]
  | false =>
    rw [requestFetchCount]
    split
    · simp [requestFetchCount]
    · omega

/-! ## Claim theorems -/

/-- C1, counterexample: with duration 2 s started at t=10000 ms and animation
frames at 10016, 11016 and 12000 ms, the engine runs to natural completion
(one completion callback) but the tick values are [2, 2, 1]: not strictly
decreasing (the `startTimer` tick and the first frame tick both report 2,
because `lastTickTimeRef` is reset to 0) and the last value is 1, not 0 (the
completing frame arrives 984 ms after the previous tick, under `intervalMs`,
so no tick fires with 0). -/
theorem tick_sequence_not_strictly_decreasing :
    ticksOf (runTimer 1000 CoreState.initial
        [.start 10000 2, .frame 10016, .frame 11016, .frame 12000]).2
      = [2, 2, 1] ∧
    completeCount (runTimer 1000 CoreState.initial
        [.start 10000 2, .frame 10016, .frame 11016, .frame 12000]).2 = 1 ∧
    ¬ (List.Chain' (· > ·) (ticksOf (runTimer 1000 CoreState.initial
          [.start 10000 2, .frame 10016, .frame 11016, .frame 12000]).2) ∧
       (ticksOf (runTimer 1000 CoreState.initial
          [.start 10000 2, .frame 10016, .frame 11016, .frame 12000]).2).getLast?
         = some 0) := by
  refine ⟨by decide, by decide, ?_⟩
  rintro ⟨-, h2⟩
  rw [show ticksOf (runTimer 1000 CoreState.initial
      [.start 10000 2, .frame 10016, .frame 11016, .frame 12000]).2
      = [2, 2, 1] from by decide] at h2
  simp at h2

/-- C1, amended: for every duration D > 0, starting the engine at `t0` and
letting a monotone frame schedule that reaches the deadline `t0 + 1000·D`
run it to natural completion, the tick callback receives non-increasing
remaining values, the completion callback is invoked exactly once, as the
last callback of the run, and the engine is then halted (not running, no
frame scheduled). -/
theorem run_to_completion_ticks_antitone (interval t0 D : Int)
    (frames : List Int) (hD : 0 < D)
    (hsort : List.Pairwise (· ≤ ·) frames)
    (hge : ∀ t ∈ frames, t0 ≤ t)
    (hdl : ∃ t ∈ frames, t0 + D * 1000 ≤ t) :
    List.Chain' (· ≥ ·) (ticksOf (runTimer interval CoreState.initial
        (TimerOp.start t0 D :: frames.map TimerOp.frame)).2) ∧
    completeCount (runTimer interval CoreState.initial
        (TimerOp.start t0 D :: frames.map TimerOp.frame)).2 = 1 ∧
    (runTimer interval CoreState.initial
        (TimerOp.start t0 D :: frames.map TimerOp.frame)).2.getLast? =
      some TimerEvent.complete ∧
    (runTimer interval CoreState.initial
        (TimerOp.start t0 D :: frames.map TimerOp.frame)).1.isRunning = false ∧
    (runTimer interval CoreState.initial
        (TimerOp.start t0 D :: frames.map TimerOp.frame)).1.animationFrame
      = false := by
  have hstart : stepTimer interval CoreState.initial (.start t0 D) =
      (activeState t0 0 D 0 D, [TimerEvent.tick D]) := by
    simp [stepTimer, startTimer, CoreState.initial, activeState]
  rw [runTimer_cons, hstart]
  dsimp only
  have hB : ∀ t ∈ frames, remOf t0 0 D t ≤ D := by
    intro t ht
    exact remOf_le_duration (by have := hge t ht; omega) hD.le
  obtain ⟨ihBound, ihChain, ihDone, _⟩ :=
    runFrames_active_spec interval t0 0 D frames 0 D D hsort hB
  have hex : ∃ t ∈ frames, remOf t0 0 D t = 0 := by
    obtain ⟨t, ht, hle⟩ := hdl
    exact ⟨t, ht, (remOf_eq_zero_iff t0 0 D t).mpr (by omega)⟩
  obtain ⟨c1, c2, c3, c4⟩ := ihDone hex
  have hne : (runTimer interval (activeState t0 0 D 0 D)
      (frames.map .frame)).2 ≠ [] := by
    intro h
    rw [h] at c2
    simp at c2
  refine ⟨?_, ?_, ?_, c3, c4⟩
  · rw [ticksOf_append]
    simp only [ticksOf, List.singleton_append]
    exact List.chain'_cons'.mpr
      ⟨fun y hy => (ihBound y (List.mem_of_mem_head? hy)).2, ihChain⟩
  · simp [completeCount_append, completeCount, c1]
  · rw [List.getLast?_append_of_ne_nil _ hne]
    exact c2

/-- C1, witness: the amended theorem applied to the concrete schedule used
above (duration 2 s, frames at 10016, 11016, 12000). -/
theorem run_to_completion_ticks_antitone_witness :
    List.Chain' (· ≥ ·) (ticksOf (runTimer 1000 CoreState.initial
        (TimerOp.start 10000 2 ::
          ([10016, 11016, 12000] : List Int).map TimerOp.frame)).2) ∧
    completeCount (runTimer 1000 CoreState.initial
        (TimerOp.start 10000 2 ::
          ([10016, 11016, 12000] : List Int).map TimerOp.frame)).2 = 1 ∧
    (runTimer 1000 CoreState.initial
        (TimerOp.start 10000 2 ::
          ([10016, 11016, 12000] : List Int).map TimerOp.frame)).2.getLast? =
      some TimerEvent.complete ∧
    (runTimer 1000 CoreState.initial
        (TimerOp.start 10000 2 ::
          ([10016, 11016, 12000] : List Int).map TimerOp.frame)).1.isRunning
      = false ∧
    (runTimer 1000 CoreState.initial
        (TimerOp.start 10000 2 ::
          ([10016, 11016, 12000] : List Int).map TimerOp.frame)).1.animationFrame
      = false :=
  run_to_completion_ticks_antitone 1000 10000 2 [10016, 11016, 12000]
    (by decide) (by decide) (by decide) ⟨12000, by decide, by decide⟩

/-- C2: with duration 100 s started at t=10000 ms, a tick at t=20000 ms
reports 90 s remaining; pausing at t=20000 ms and resuming at t=50000 ms,
the first tick after resume (frame at t=50016 ms) reports 110 s remaining —
not 90 ± 1: `pauseTimer` adds the *active* elapsed time to `pausedTimeRef`
and `resumeTimer` re-anchors `startTimeRef`, so `updateTimer` subtracts the
pre-pause progress twice and the countdown jumps up by twice the time
already run. -/
theorem pause_resume_inflates_remaining :
    ticksOf (runTimer 1000 CoreState.initial
        [.start 10000 100, .frame 20000, .pause 20000, .resume 50000,
         .frame 50016]).2 = [100, 90, 110] ∧
    ¬ ((110 : Int) - 90 ≤ 1 ∧ (90 : Int) - 110 ≤ 1) := by decide

/-- C3: `getNextSessionType` is a pure function of the session type, session
number and cycle length: after `work` it returns `long_break` exactly when
the session number is a multiple of the cycle length and `short_break`
otherwise; after either break it returns `work`. -/
theorem getNextSessionType_spec (n cycle : Nat) (_h : 0 < cycle) :
    (getNextSessionType .work n cycle =
      if cycle ∣ n then .long_break else .short_break) ∧
    getNextSessionType .short_break n cycle = .work ∧
    getNextSessionType .long_break n cycle = .work := by
  refine ⟨?_, rfl, rfl⟩
  simp [getNextSessionType, Nat.dvd_iff_mod_eq_zero]

/-- C3, witness: the specification evaluated at session number 8, cycle 4. -/
theorem getNextSessionType_spec_witness :
    (getNextSessionType .work 8 4 =
      if 4 ∣ 8 then .long_break else .short_break) ∧
    getNextSessionType .short_break 8 4 = .work ∧
    getNextSessionType .long_break 8 4 = .work :=
  getNextSessionType_spec 8 4 (by decide)

/-- C10, counterexample: at session number 5 with cycle length 4 after a
work session, the legacy hook (`sessionNumber >= sessionsUntilLongBreak`)
returns `long_break` while the refactored hook
(`sessionNumber % sessionsUntilLongBreak === 0`) returns `short_break`, so
the two implementations are not equivalent. -/
theorem nextSessionType_implementations_differ :
    getNextSessionTypeLegacy .work 5 4 = .long_break ∧
    getNextSessionType .work 5 4 = .short_break ∧
    getNextSessionTypeLegacy .work 5 4 ≠ getNextSessionType .work 5 4 := by
  decide

/-- C10, amended: the two implementations agree after any break (both return
`work`), and after a work session they agree whenever the session number
lies in the first cycle, `1 ≤ sessionNumber ≤ sessionsUntilLongBreak`; they
diverge beyond it (e.g. sessionNumber 5, cycle 4). -/
theorem nextSessionType_agree_within_cycle (st : SessionType) (n cycle : Nat)
    (h1 : 1 ≤ n) (h2 : n ≤ cycle) :
    getNextSessionTypeLegacy st n cycle = getNextSessionType st n cycle := by
  cases st with
  | work =>
    unfold getNextSessionTypeLegacy getNextSessionType
    by_cases hc : cycle ≤ n
    · have hn : n = cycle := le_antisymm h2 hc
      subst hn
      simp [Nat.mod_self]
    · have hlt : n < cycle := not_le.mp hc
      have hmod : n % cycle = n := Nat.mod_eq_of_lt hlt
      rw [if_neg hc, if_neg]
      intro h0
      rw [hmod] at h0
      omega
  | short_break => rfl
  | long_break => rfl

/-- C10, witness: agreement at session number 2, cycle length 4. -/
theorem nextSessionType_agree_within_cycle_witness :
    getNextSessionTypeLegacy .work 2 4 = getNextSessionType .work 2 4 :=
  nextSessionType_agree_within_cycle .work 2 4 (by decide) (by decide)

/-- C8: `startTimer` on an already running engine returns the state entirely
unchanged and fires no callback, and `pauseTimer` on an engine that is not
running or already paused returns the state entirely unchanged (both are
total functions, so neither throws). -/
theorem timer_defensive_noops :
    (∀ (s : CoreState) (now d : Int), s.isRunning = true →
        startTimer s now d = (s, [])) ∧
    (∀ (s : CoreState) (now : Int), s.isRunning = false ∨ s.isPaused = true →
        pauseTimer s now = s) := by
  constructor
  · intro s now d h
    simp [startTimer, h]
  · intro s now h
    unfold pauseTimer
    cases hst : s.startTime with
    | none => rfl
    | some startT =>
      rcases h with h' | h' <;> simp [h']

/-- C8, witness: both no-ops evaluated at concrete states. -/
theorem timer_defensive_noops_witness :
    startTimer { CoreState.initial with isRunning := true } 7 5 =
      ({ CoreState.initial with isRunning := true }, []) ∧
    pauseTimer CoreState.initial 7 = CoreState.initial :=
  ⟨timer_defensive_noops.1 { CoreState.initial with isRunning := true } 7 5 rfl,
   timer_defensive_noops.2 CoreState.initial 7 (Or.inl rfl)⟩

/-- C9: `loadActiveSession` treats both the "no active session" answer and
any failure of the get-active-session call as normal: the error state ends
`none` and the current session ends `none`; only an actual session becomes
current, with its `session_type` adopted.  The 204-style "none" signal of
`getActivePomodoroSession` maps a failing request whose message mentions
204 to a successful `none` answer. -/
theorem loadActiveSession_no_error (st : SessionState)
    (outcome : Except String (Option Session)) :
    (∀ m, outcome = .error m →
        (loadActiveSessionOp st outcome).error = none ∧
        (loadActiveSessionOp st outcome).currentSession = none) ∧
    (outcome = .ok none →
        (loadActiveSessionOp st outcome).error = none ∧
        (loadActiveSessionOp st outcome).currentSession = none ∧
        (loadActiveSessionOp st outcome).sessionType = st.sessionType) ∧
    (∀ s, outcome = .ok (some s) →
        (loadActiveSessionOp st outcome).error = none ∧
        (loadActiveSessionOp st outcome).currentSession = some s ∧
        (loadActiveSessionOp st outcome).sessionType = s.session_type) ∧
    (∀ m : String, "204".toList <:+: m.toList →
        getActivePomodoroSession (.error m) = .ok none) := by
  refine ⟨?_, ?_, ?_, ?_⟩
  · intro m hm
    subst hm
    simp [loadActiveSessionOp]
  · intro hm
    subst hm
    simp [loadActiveSessionOp]
  · intro s hm
    subst hm
    simp [loadActiveSessionOp]
  · intro m hm
    show (if "204".toList <:+: m.toList then
        (Except.ok none : Except String (Option Session))
      else .error m) = .ok none
    rw [if_pos hm]

/-- C9, witness: the theorem evaluated at the initial state, for a failing
call, a "none" answer, a returned session, and a 204-style message. -/
theorem loadActiveSession_no_error_witness :
    ((loadActiveSessionOp SessionState.initial (.error "HTTP error")).error
        = none ∧
      (loadActiveSessionOp SessionState.initial
          (.error "HTTP error")).currentSession = none) ∧
    ((loadActiveSessionOp SessionState.initial (.ok none)).error = none ∧
      (loadActiveSessionOp SessionState.initial (.ok none)).currentSession
        = none) ∧
    (loadActiveSessionOp SessionState.initial
        (.ok (some { id := 9, session_type := .long_break,
                     status := .active }))).currentSession
      = some { id := 9, session_type := .long_break, status := .active } ∧
    getActivePomodoroSession (.error "HTTP error! status: 204") = .ok none :=
  ⟨(loadActiveSession_no_error SessionState.initial
      (.error "HTTP error")).1 "HTTP error" rfl,
   ⟨((loadActiveSession_no_error SessionState.initial (.ok none)).2.1 rfl).1,
    ((loadActiveSession_no_error SessionState.initial (.ok none)).2.1 rfl).2.1⟩,
   ((loadActiveSession_no_error SessionState.initial
        (.ok (some { id := 9, session_type := .long_break,
                     status := .active }))).2.2.1
      { id := 9, session_type := .long_break, status := .active } rfl).2.1,
   (loadActiveSession_no_error SessionState.initial
      (.error "x")).2.2.2 "HTTP error! status: 204" (by decide)⟩

/-- C6, counterexample: the session manager does not guard creation: after a
successful `createSession` left a session with status `active` as current
(neither completed nor skipped), a second successful `createSession` still
goes through and replaces the current reference. -/
theorem createSession_unguarded :
    (runSession SessionState.initial
        [.create (.ok { id := 1, session_type := .work,
                        status := .active })]).currentSession
      = some { id := 1, session_type := .work, status := .active } ∧
    SessionStatus.active ≠ SessionStatus.completed ∧
    SessionStatus.active ≠ SessionStatus.skipped ∧
    (runSession SessionState.initial
        [.create (.ok { id := 1, session_type := .work, status := .active }),
         .create (.ok { id := 2, session_type := .work,
                        status := .active })]).currentSession
      = some { id := 2, session_type := .work, status := .active } := by
  refine ⟨rfl, by decide, by decide, rfl⟩

/-- C6, amended: the manager holds at most one session locally in every
reachable state (the single nullable current-session reference), and
successfully completing the current session clears it; but creation is not
guarded on the previous session having been completed or skipped. -/
theorem session_reference_unique :
    (∀ ops : List SessionOp,
        ((runSession SessionState.initial ops).currentSession).toList.length
          ≤ 1) ∧
    (∀ (st : SessionState) (c : Session), st.currentSession = some c →
        (completeSessionOp st c.id (.ok ())).currentSession = none) := by
  constructor
  · intro ops
    cases h : (runSession SessionState.initial ops).currentSession <;> simp [h]
  · intro st c h
    simp [completeSessionOp, h]

/-- C6, witness: the amended theorem at a one-create run and at a state
holding session 3. -/
theorem session_reference_unique_witness :
    ((runSession SessionState.initial
        [.create (.ok { id := 3, session_type := .work,
                        status := .active })]).currentSession).toList.length
      ≤ 1 ∧
    (completeSessionOp
        { SessionState.initial with
            currentSession := some { id := 3, session_type := .work,
                                     status := .active } }
        3 (.ok ())).currentSession = none :=
  ⟨session_reference_unique.1 _,
   session_reference_unique.2
     { SessionState.initial with
         currentSession := some { id := 3, session_type := .work,
                                  status := .active } }
     { id := 3, session_type := .work, status := .active } rfl⟩

/-- C5: a `loadSettings()` call (no force) issued while the cache holds a
value stored less than `CACHE_DURATION_MS` (5 minutes) earlier makes no
remote request and returns the cached value, leaving cache and error state
untouched; `loadSettings(true)` always issues the remote fetch, and on
success stores the response with a refreshed cache timestamp. -/
theorem loadSettings_cache_policy (cache : SettingsCache)
    (stg : Option Settings) (err0 : Option String) (now t : Int)
    (s : Settings) (outcome : FetchOutcome Settings) :
    (cache.settingsCache = some s → cache.cacheTimestamp = some t →
      0 < t → now - t < CACHE_DURATION_MS →
      loadSettingsRun cache stg err0 now false outcome =
        { requestMade := false, cache := cache, settings := some s,
          error := err0 }) ∧
    (loadSettingsRun cache stg err0 now true outcome).requestMade = true ∧
    (∀ u, outcome = .ok u →
      (loadSettingsRun cache stg err0 now true outcome).cache =
        { settingsCache := some u, cacheTimestamp := some now }) := by
  refine ⟨?_, ?_, ?_⟩
  · intro h1 h2 h3 h4
    have ht : t ≠ 0 := by omega
    simp [loadSettingsRun, cacheFresh, h1, h2, ht, h4]
  · cases outcome <;> simp [loadSettingsRun]
  · intro u hu
    subst hu
    simp [loadSettingsRun]

/-- C5, witness: a fresh-cache hit at 2000 ms after a load at 1000 ms, and a
forced refresh storing the response. -/
theorem loadSettings_cache_policy_witness :
    loadSettingsRun
        { settingsCache := some sampleSettings, cacheTimestamp := some 1000 }
        none none 2000 false (.error false) =
      { requestMade := false,
        cache := { settingsCache := some sampleSettings,
                   cacheTimestamp := some 1000 },
        settings := some sampleSettings, error := none } ∧
    (loadSettingsRun
        { settingsCache := some sampleSettings, cacheTimestamp := some 1000 }
        none none 2000 true (.ok sampleSettings)).requestMade = true ∧
    (loadSettingsRun
        { settingsCache := some sampleSettings, cacheTimestamp := some 1000 }
        none none 2000 true (.ok sampleSettings)).cache =
      { settingsCache := some sampleSettings, cacheTimestamp := some 2000 } :=
  ⟨(loadSettings_cache_policy
      { settingsCache := some sampleSettings, cacheTimestamp := some 1000 }
      none none 2000 1000 sampleSettings (.error false)).1 rfl rfl
      (by decide) (by decide),
   (loadSettings_cache_policy
      { settingsCache := some sampleSettings, cacheTimestamp := some 1000 }
      none none 2000 1000 sampleSettings (.ok sampleSettings)).2.1,
   (loadSettings_cache_policy
      { settingsCache := some sampleSettings, cacheTimestamp := some 1000 }
      none none 2000 1000 sampleSettings (.ok sampleSettings)).2.2
      sampleSettings rfl⟩

/-- C4: `updateSettings(P)` on loaded settings `S` first shows the merged
state `S ∪ P`; if the remote update fails the visible state ends at exactly
the pre-update snapshot `S`, and for a real (non-abort) failure an error is
surfaced and the call rejects; on success the visible state ends at the
server's response, which also refreshes the cache. -/
theorem updateSettings_optimistic_rollback (cache : SettingsCache)
    (s : Settings) (now : Int) (p : SettingsPartial)
    (outcome : FetchOutcome Settings) :
    ((updateSettingsRun cache (some s) now p outcome).visible.head? =
        some (some (mergeSettings s p))) ∧
    (∀ saved, outcome = .ok saved →
        updateSettingsRun cache (some s) now p outcome =
          { visible := [some (mergeSettings s p), some saved], error := none,
            cache := { settingsCache := some saved,
                       cacheTimestamp := some now },
            threw := false }) ∧
    (∀ aborted, outcome = .error aborted →
        (updateSettingsRun cache (some s) now p outcome).visible.getLast? =
          some (some s)) ∧
    (outcome = .error false →
        (updateSettingsRun cache (some s) now p outcome).error =
          some "Failed to save timer settings" ∧
        (updateSettingsRun cache (some s) now p outcome).threw = true) := by
  refine ⟨?_, ?_, ?_, ?_⟩
  · cases outcome <;> simp [updateSettingsRun]
  · intro saved hs
    subst hs
    simp [updateSettingsRun]
  · intro aborted ha
    subst ha
    simp [updateSettingsRun]
  · intro ha
    subst ha
    simp [updateSettingsRun]

/-- C4, witness: an optimistic update of `work_duration` to 30 that fails
remotely, rolled back to the snapshot; and one that succeeds. -/
theorem updateSettings_optimistic_rollback_witness :
    ((updateSettingsRun
        { settingsCache := some sampleSettings, cacheTimestamp := some 1000 }
        (some sampleSettings) 2000 { work_duration := some 30 }
        (.error false)).visible.head? =
      some (some (mergeSettings sampleSettings { work_duration := some 30 }))) ∧
    ((updateSettingsRun
        { settingsCache := some sampleSettings, cacheTimestamp := some 1000 }
        (some sampleSettings) 2000 { work_duration := some 30 }
        (.error false)).visible.getLast? = some (some sampleSettings)) ∧
    ((updateSettingsRun
        { settingsCache := some sampleSettings, cacheTimestamp := some 1000 }
        (some sampleSettings) 2000 { work_duration := some 30 }
        (.error false)).error = some "Failed to save timer settings") ∧
    updateSettingsRun
        { settingsCache := some sampleSettings, cacheTimestamp := some 1000 }
        (some sampleSettings) 2000 { work_duration := some 30 }
        (.ok sampleSettings) =
      { visible := [some (mergeSettings sampleSettings
            { work_duration := some 30 }), some sampleSettings],
        error := none,
        cache := { settingsCache := some sampleSettings,
                   cacheTimestamp := some 2000 },
        threw := false } :=
  ⟨(updateSettings_optimistic_rollback
      { settingsCache := some sampleSettings, cacheTimestamp := some 1000 }
      sampleSettings 2000 { work_duration := some 30 } (.error false)).1,
   (updateSettings_optimistic_rollback
      { settingsCache := some sampleSettings, cacheTimestamp := some 1000 }
      sampleSettings 2000 { work_duration := some 30 } (.error false)).2.2.1
      false rfl,
   ((updateSettings_optimistic_rollback
      { settingsCache := some sampleSettings, cacheTimestamp := some 1000 }
      sampleSettings 2000 { work_duration := some 30 } (.error false)).2.2.2
      rfl).1,
   (updateSettings_optimistic_rollback
      { settingsCache := some sampleSettings, cacheTimestamp := some 1000 }
      sampleSettings 2000 { work_duration := some 30 } (.ok sampleSettings)).2.1
      sampleSettings rfl⟩

/-- C7: the token refresh performs at most `MAX_RETRIES = 3` fetch attempts;
between consecutive attempts it sleeps `min(1000 · 2^(attempt-1), 30000)`
milliseconds (one sleep per non-final attempt); a 401 answer is always the
last attempt observed (it stops the loop immediately) and yields failure;
if no attempt succeeds the refresh returns failure; and the only other
remote path with a retry, the `request` wrapper funnelling every other API
call, performs at most 2 fetches of its endpoint (a single retry after a
successful refresh, never a loop). -/
theorem performTokenRefresh_retry_policy :
    (∀ oracle : Nat → FetchResult,
        (performTokenRefresh oracle).attempts.length ≤
          TOKEN_REFRESH_MAX_RETRIES) ∧
    (∀ oracle : Nat → FetchResult,
        (performTokenRefresh oracle).sleeps =
          (List.range
              ((performTokenRefresh oracle).attempts.length - 1)).map
            (fun i =>
              min (TOKEN_REFRESH_INITIAL_DELAY_MS *
                  TOKEN_REFRESH_BACKOFF_MULTIPLIER ^ i)
                TOKEN_REFRESH_MAX_DELAY_MS)) ∧
    (∀ oracle : Nat → FetchResult,
        FetchResult.status 401 ∈ (performTokenRefresh oracle).attempts →
        (performTokenRefresh oracle).attempts.getLast? =
            some (.status 401) ∧
          (performTokenRefresh oracle).success = false) ∧
    (∀ oracle : Nat → FetchResult,
        (∀ i ∈ [1, 2, 3], oracle i ≠ .ok) →
        (performTokenRefresh oracle).success = false) ∧
    (∀ (statusAt : Bool → Nat) (refreshOk isRetry : Bool),
        requestFetchCount statusAt refreshOk isRetry ≤ 2) := by
  refine ⟨?_, ?_, ?_, ?_, requestFetchCount_le_two⟩
  · intro oracle
    exact performTokenRefreshGo_attempts_le oracle _
  · intro oracle
    rw [performTokenRefresh_eq_go123,
      performTokenRefreshGo_123_sleeps oracle]
    simp [refreshDelay]
  · intro oracle hmem
    exact performTokenRefreshGo_401_last oracle _ hmem
  · intro oracle h
    exact performTokenRefreshGo_no_ok oracle _ h

/-- C7, witness: a run where every fetch rejects (three attempts, sleeps
1000 ms then 2000 ms, failure), a run answered 401 at once (it is the last
attempt and the refresh fails), and a `request` on a 401 with a successful
refresh (two fetches). -/
theorem performTokenRefresh_retry_policy_witness :
    (performTokenRefresh (fun _ => .netError)).attempts.length ≤
        TOKEN_REFRESH_MAX_RETRIES ∧
    (performTokenRefresh (fun _ => .netError)).sleeps =
      (List.range
          ((performTokenRefresh (fun _ => .netError)).attempts.length - 1)).map
        (fun i =>
          min (TOKEN_REFRESH_INITIAL_DELAY_MS *
              TOKEN_REFRESH_BACKOFF_MULTIPLIER ^ i)
            TOKEN_REFRESH_MAX_DELAY_MS) ∧
    ((performTokenRefresh (fun _ => .status 401)).attempts.getLast? =
        some (.status 401) ∧
      (performTokenRefresh (fun _ => .status 401)).success = false) ∧
    (performTokenRefresh (fun _ => .netError)).success = false ∧
    requestFetchCount (fun _ => 401) true false ≤ 2 :=
  ⟨performTokenRefresh_retry_policy.1 _,
   performTokenRefresh_retry_policy.2.1 _,
   performTokenRefresh_retry_policy.2.2.1 _ (by decide),
   performTokenRefresh_retry_policy.2.2.2.1 _ (by decide),
   performTokenRefresh_retry_policy.2.2.2.2 _ true false⟩

end Lumina
